import Mathlib

/-!
Verification development for `rust-opengl-playground` (`src/main.rs`): a minimal
OpenGL triangle demo.  The effectful GL/GLFW calls are shallowly embedded as a
trace of `GLCmd` values; the driver's answers to status queries (compile
status, link status, info logs) are supplied by a `Driver` oracle; the GLFW
window's close flag and the GL viewport are carried in a `WindowState` that
the event handler threads explicitly.
-/

namespace OpenGLPlayground

/-! ### GL enum constants, as defined by the `gl` crate -/

def GL_VERTEX_SHADER : Nat := 35633
def GL_FRAGMENT_SHADER : Nat := 35632
def GL_COMPILE_STATUS : Nat := 35713
def GL_LINK_STATUS : Nat := 35714
def GL_ARRAY_BUFFER : Nat := 34962
def GL_STATIC_DRAW : Nat := 35044
def GL_FLOAT : Nat := 5126
def GL_TRIANGLES : Nat := 4
def GL_COLOR_BUFFER_BIT : Nat := 16384
def GL_TRUE : Int := 1
def GL_FALSE : Int := 0
/-- `mem::size_of::<GLfloat>()` in the Rust source: 4 bytes. -/
def sizeofGLfloat : Nat := 4

/-! ### The GL / GLFW command trace -/

/-- One effectful GL or GLFW call issued by the program, in program order.
Arguments that the claims never inspect (raw pointers, float uniform values)
are elided; all handle arguments and enum arguments are kept. -/
inductive GLCmd where
  | createShader (kind : Nat) (id : Nat)
  | shaderSource (id : Nat)
  | compileShader (id : Nat)
  | getShaderiv (id : Nat) (pname : Nat)
  | getShaderInfoLog (id : Nat)
  | createProgram (id : Nat)
  | attachShader (prog sh : Nat)
  | linkProgram (prog : Nat)
  | getProgramiv (prog : Nat) (pname : Nat)
  | getProgramInfoLog (prog : Nat)
  | deleteShader (id : Nat)
  | genVertexArrays (id : Nat)
  | genBuffers (id : Nat)
  | bindVertexArray (id : Nat)
  | bindBuffer (target id : Nat)
  | bufferData (target : Nat) (sizeBytes : Nat) (usage : Nat)
  | vertexAttribPointer (index comps ty : Nat) (normalized : Bool) (stride offset : Nat)
  | enableVertexAttribArray (index : Nat)
  | clearColor (r g b a : ℚ)
  | clear (mask : Nat)
  | getUniformLocation (prog : Nat) (name : String)
  | useProgram (prog : Nat)
  | uniform4f (loc : Int)
  | drawArrays (mode : Nat) (first count : Nat)
  | viewport (x y w h : Int)
  | swapBuffers
  | pollEvents
  | setShouldClose
  deriving DecidableEq

/-! ### GLFW events and the event handler `process_events` -/

/-- `glfw::Action`. -/
inductive GAction where
  | press
  | release
  | repeatKey
  deriving DecidableEq

/-- The keys the program distinguishes: `glfw::Key::Escape` versus anything else. -/
inductive GKey where
  | escape
  | otherKey (code : Nat)
  deriving DecidableEq

/-- `glfw::WindowEvent`, restricted to the shape the handler matches on. -/
inductive WindowEvent where
  | framebufferSize (w h : Int)
  | key (k : GKey) (scancode : Int) (a : GAction) (mods : Nat)
  | otherEvent (tag : Nat)
  deriving DecidableEq

/-- The mutable state the event handler can touch: the GLFW window's
should-close flag and the GL viewport rectangle. -/
structure WindowState where
  shouldClose : Bool
  viewportRect : Int × Int × Int × Int
  deriving DecidableEq

/-- One arm of the `match event` in `process_events`:
`FramebufferSize(w, h)` calls `gl::Viewport(0, 0, w, h)`;
`Key(Key::Escape, _, Action::Press, _)` calls `window.set_should_close(true)`;
every other event does nothing. -/
def processEvent (s : WindowState) (e : WindowEvent) : WindowState × List GLCmd :=
  match e with
  | .framebufferSize w h => (⟨s.shouldClose, (0, 0, w, h)⟩, [.viewport 0 0 w h])
  | .key .escape _ .press _ => (⟨true, s.viewportRect⟩, [.setShouldClose])
  | _ => (s, [])

/-- `process_events`: drain the event queue in arrival order, dispatching each
event through the `match`. -/
def process_events (s : WindowState) (events : List WindowEvent) :
    WindowState × List GLCmd :=
  match events with
  | [] => (s, [])
  | e :: rest =>
    let (s1, cs) := processEvent s e
    let (s2, cs2) := process_events s1 rest
    (s2, cs ++ cs2)

/-! ### The render-loop body of `main` -/

/-- The straight-line body of one render-loop iteration after event handling:
clear to the fixed background color `(0.2, 0.3, 0.3, 1.0)`, resolve the
`albedo` uniform, bind the program, upload the uniform, bind the VAO, draw 3
vertices as a triangle list, swap buffers, poll events.  The time-varying
uniform values are floats that the claims never inspect, so `uniform4f`
carries only the resolved location `uloc`. -/
def renderFrame (prog vao : Nat) (uloc : Int) : List GLCmd :=
  [ .clearColor 0.2 0.3 0.3 1.0
  , .clear GL_COLOR_BUFFER_BIT
  , .getUniformLocation prog "albedo"
  , .useProgram prog
  , .uniform4f uloc
  , .bindVertexArray vao
  , .drawArrays GL_TRIANGLES 0 3
  , .swapBuffers
  , .pollEvents ]

/-- The `while !window.should_close()` loop of `main`, driven by the finite
list of event batches the environment delivers (batch `i` is what
`glfw::flush_messages` yields at iteration `i`).  The close flag is tested at
the top of each iteration; an iteration that starts in the running state
drains its batch and then renders unconditionally. -/
def runLoop (prog vao : Nat) (uloc : Int) :
    WindowState → List (List WindowEvent) → WindowState × List GLCmd
  | s, [] => (s, [])
  | s, batch :: rest =>
    if s.shouldClose then (s, [])
    else
      let (s1, evCmds) := process_events s batch
      let (sf, tail) := runLoop prog vao uloc s1 rest
      (sf, evCmds ++ renderFrame prog vao uloc ++ tail)

/-! ### Shader compilation and linking (`compiler_shader` and helpers) -/

/-- The answers the GL driver gives to the status/log queries the program
makes: compile status and info log per stage, link status and info log for
the program object. -/
structure Driver where
  vertexStatus : Int
  vertexLog : List Nat
  fragmentStatus : Int
  fragmentLog : List Nat
  linkStatus : Int
  linkLog : List Nat
  deriving DecidableEq

/-- The info-log buffer as the Rust code reads it back: a `Vec` of length
`512 - 1 = 511` into which the driver writes its log (truncated to fit,
null-terminated); bytes past what the driver wrote are modelled as zero. -/
def readInfoLogBuffer (driverLog : List Nat) : List Nat :=
  (driverLog ++ List.replicate 511 0).take 511

/-- The 511-byte buffer decoded with `std::str::from_utf8`. -/
def infoLogString (driverLog : List Nat) : String :=
  String.mk ((readInfoLogBuffer driverLog).map Char.ofNat)

/-- `compile_shader_with_debug`: compile the shader, query
`GL_COMPILE_STATUS`; if the status differs from `GL_TRUE`, fetch the info log
and panic with a message naming the stage and embedding the log.  The panic is
embedded as an `Except.error` carrying the panic message; `Except.ok` is the
normal return. -/
def compile_shader_with_debug (shader_id : Nat) (status : Int)
    (driverLog : List Nat) (message : String) :
    List GLCmd × Except String Unit :=
  let pre : List GLCmd := [.compileShader shader_id, .getShaderiv shader_id GL_COMPILE_STATUS]
  if status ≠ GL_TRUE then
    (pre ++ [.getShaderInfoLog shader_id],
     .error ("ERROR::SHADER::" ++ message ++ "::COMPILATION_FAILED\n" ++
             infoLogString driverLog))
  else
    (pre, .ok ())

/-- `check_linking_errors`: query `GL_LINK_STATUS`; if it differs from
`GL_TRUE`, fetch the program info log and panic with the program-link
diagnostic. -/
def check_linking_errors (shader_program : Nat) (status : Int)
    (driverLog : List Nat) : List GLCmd × Except String Unit :=
  let pre : List GLCmd := [.getProgramiv shader_program GL_LINK_STATUS]
  if status ≠ GL_TRUE then
    (pre ++ [.getProgramInfoLog shader_program],
     .error ("ERROR::SHADER::PROGRAM::COMPILATION_FAILED\n" ++
             infoLogString driverLog))
  else
    (pre, .ok ())

/-- `compiler_shader`: build the vertex shader, build the fragment shader,
create a program, attach both, link, check linking errors, delete both
shaders, return the program handle.  A panic anywhere aborts the run at that
point: nothing after it is executed.  The fresh handles GL would return are
taken as parameters `vsId`, `fsId`, `progId`. -/
def compiler_shader (d : Driver) (vsId fsId progId : Nat) :
    List GLCmd × Except String Nat :=
  let tv : List GLCmd := [.createShader GL_VERTEX_SHADER vsId, .shaderSource vsId]
  let (cv, rv) := compile_shader_with_debug vsId d.vertexStatus d.vertexLog "VERTEX"
  match rv with
  | .error e => (tv ++ cv, .error e)
  | .ok _ =>
    let tf : List GLCmd := [.createShader GL_FRAGMENT_SHADER fsId, .shaderSource fsId]
    let (cf, rf) := compile_shader_with_debug fsId d.fragmentStatus d.fragmentLog "FRAGMENT"
    match rf with
    | .error e => (tv ++ cv ++ tf ++ cf, .error e)
    | .ok _ =>
      let tl : List GLCmd :=
        [.createProgram progId, .attachShader progId vsId, .attachShader progId fsId,
         .linkProgram progId]
      let (cl, rl) := check_linking_errors progId d.linkStatus d.linkLog
      match rl with
      | .error e => (tv ++ cv ++ tf ++ cf ++ tl ++ cl, .error e)
      | .ok _ =>
        (tv ++ cv ++ tf ++ cf ++ tl ++ cl ++ [.deleteShader vsId, .deleteShader fsId],
         .ok progId)

/-! ### Static mesh upload (`setup_vertex_data`) -/

/-- Number of `f32` entries in the hardcoded triangle array `vertices: [f32; 9]`. -/
def verticesLen : Nat := 9

/-- `setup_vertex_data`: generate one VAO and one VBO, bind the VAO then the
VBO, upload the 9-float triangle as `GL_STATIC_DRAW`, declare attribute 0 as
3 floats, not normalized, stride `3 * sizeof(GLfloat)`, offset 0, enable it,
unbind the VBO then the VAO, and return the VAO handle.  The fresh handles GL
would return are taken as parameters `vboId`, `vaoId`. -/
def setup_vertex_data (vboId vaoId : Nat) : List GLCmd × Nat :=
  ( [ .genVertexArrays vaoId
    , .genBuffers vboId
    , .bindVertexArray vaoId
    , .bindBuffer GL_ARRAY_BUFFER vboId
    , .bufferData GL_ARRAY_BUFFER (verticesLen * sizeofGLfloat) GL_STATIC_DRAW
    , .vertexAttribPointer 0 3 GL_FLOAT false (3 * sizeofGLfloat) 0
    , .enableVertexAttribArray 0
    , .bindBuffer GL_ARRAY_BUFFER 0
    , .bindVertexArray 0 ]
  , vaoId )

/-! ### `main` -/

/-- The initial window state: close flag unset, viewport covering the
800×600 window. -/
def initialWindowState : WindowState := ⟨false, (0, 0, 800, 600)⟩

/-- `main` after window creation: compile and link the shader program, set up
the vertex data, then run the render loop.  A shader panic aborts before any
mesh upload or rendering. -/
def mainModel (d : Driver) (vsId fsId progId vboId vaoId : Nat) (uloc : Int)
    (frames : List (List WindowEvent)) : List GLCmd × Except String WindowState :=
  match compiler_shader d vsId fsId progId with
  | (t1, .error e) => (t1, .error e)
  | (t1, .ok prog) =>
    let (t2, vao) := setup_vertex_data vboId vaoId
    let (sf, t3) := runLoop prog vao uloc initialWindowState frames
    (t1 ++ t2 ++ t3, .ok sf)

/-! ### Trace observations used by the claims -/

/-- Is this command a draw call? -/
def isDrawCmd : GLCmd → Bool
  | .drawArrays _ _ _ => true
  | _ => false

/-- Is this command part of presenting a frame (clear / draw / swap)? -/
def isFrameCmd : GLCmd → Bool
  | .clearColor _ _ _ _ => true
  | .clear _ => true
  | .drawArrays _ _ _ => true
  | .swapBuffers => true
  | _ => false

/-- Does a clear/draw/present command occur somewhere after a
`setShouldClose` in the trace?  The spec's claim C1 asserts this is never the
case. -/
def frameCmdAfterClose : List GLCmd → Bool
  | [] => false
  | .setShouldClose :: rest => rest.any isFrameCmd || frameCmdAfterClose rest
  | _ :: rest => frameCmdAfterClose rest

/-- Number of draw calls in a trace. -/
def countDraws (t : List GLCmd) : Nat := t.countP (fun c => isDrawCmd c)

/-- Number of `glCreateProgram` calls in a trace. -/
def countCreateProgram (t : List GLCmd) : Nat :=
  t.countP (fun c => match c with | .createProgram _ => true | _ => false)

/-- Number of `glGenVertexArrays` calls in a trace. -/
def countGenVertexArrays (t : List GLCmd) : Nat :=
  t.countP (fun c => match c with | .genVertexArrays _ => true | _ => false)

/-- Number of `glVertexAttribPointer` calls in a trace. -/
def countAttribPointer (t : List GLCmd) : Nat :=
  t.countP (fun c => match c with | .vertexAttribPointer _ _ _ _ _ _ => true | _ => false)

/-- The GL bind state (currently bound `GL_ARRAY_BUFFER`, currently bound
vertex array) after replaying a trace from a neutral (all-zero) state. -/
def finalBindState (t : List GLCmd) : Nat × Nat :=
  t.foldl
    (fun st c =>
      match c with
      | .bindBuffer _ id => (id, st.2)
      | .bindVertexArray id => (st.1, id)
      | _ => st)
    (0, 0)

/-! ### Helper lemmas about the event handler -/

theorem processEvent_cmds (s : WindowState) (e : WindowEvent) :
    ∀ c ∈ (processEvent s e).2,
      (∃ w h, c = GLCmd.viewport 0 0 w h) ∨ c = GLCmd.setShouldClose := by
  intro c hc
  cases e with
  | framebufferSize w h =>
      simp [processEvent] at hc
      exact Or.inl ⟨w, h, hc⟩
  | key k sc a m =>
      cases k with
      | escape =>
          cases a with
          | press =>
              simp [processEvent] at hc
              exact Or.inr hc
          | release => simp [processEvent] at hc
          | repeatKey => simp [processEvent] at hc
      | otherKey code => simp [processEvent] at hc
  | otherEvent t => simp [processEvent] at hc

theorem processEvent_close_mono (s : WindowState) (e : WindowEvent)
    (hsc : s.shouldClose = true) : ((processEvent s e).1).shouldClose = true := by
  cases e with
  | framebufferSize w ht => simpa [processEvent] using hsc
  | key k sc a m =>
      cases k with
      | escape => cases a <;> simp [processEvent] <;> exact hsc
      | otherKey code => simpa [processEvent] using hsc
  | otherEvent t => simpa [processEvent] using hsc

theorem process_events_cmds (s : WindowState) (evs : List WindowEvent) :
    ∀ c ∈ (process_events s evs).2,
      (∃ w h, c = GLCmd.viewport 0 0 w h) ∨ c = GLCmd.setShouldClose := by
  induction evs generalizing s with
  | nil => simp [process_events]
  | cons e rest ih =>
      intro c hc
      rcases h1 : processEvent s e with ⟨s1, cs⟩
      rcases h2 : process_events s1 rest with ⟨s2, cs2⟩
      simp [process_events, h1, h2] at hc
      rcases hc with hc | hc
      · exact processEvent_cmds s e c (by rw [h1]; exact hc)
      · exact ih s1 c (by rw [h2]; exact hc)

theorem process_events_close_mono (s : WindowState) (evs : List WindowEvent)
    (h : s.shouldClose = true) : ((process_events s evs).1).shouldClose = true := by
  induction evs generalizing s with
  | nil => simpa [process_events] using h
  | cons e rest ih =>
      rcases h1 : processEvent s e with ⟨s1, cs⟩
      rcases h2 : process_events s1 rest with ⟨s2, cs2⟩
      have hs1 : s1.shouldClose = true := by
        have := processEvent_close_mono s e h
        rw [h1] at this
        exact this
      have := ih s1 hs1
      rw [h2] at this
      simp [process_events, h1, h2]
      exact this

theorem process_events_escape (s : WindowState) (evs : List WindowEvent)
    (sc : Int) (m : Nat) (hmem : WindowEvent.key GKey.escape sc GAction.press m ∈ evs) :
    ((process_events s evs).1).shouldClose = true := by
  induction evs generalizing s with
  | nil => simp at hmem
  | cons e rest ih =>
      rcases h1 : processEvent s e with ⟨s1, cs⟩
      rcases h2 : process_events s1 rest with ⟨s2, cs2⟩
      have hgoal : (process_events s (e :: rest)).1 = s2 := by
        simp [process_events, h1, h2]
      rw [hgoal]
      rcases List.mem_cons.mp hmem with he | he
      · have hs1 : s1.shouldClose = true := by
          rw [← he] at h1
          simp [processEvent] at h1
          rw [← h1.1]
        have := process_events_close_mono s1 rest hs1
        rw [h2] at this
        exact this
      · have := ih s1 he
        rw [h2] at this
        exact this

theorem process_events_viewport_mem (s : WindowState) (evs : List WindowEvent)
    (W H : Int) (hmem : WindowEvent.framebufferSize W H ∈ evs) :
    GLCmd.viewport 0 0 W H ∈ (process_events s evs).2 := by
  induction evs generalizing s with
  | nil => simp at hmem
  | cons e rest ih =>
      rcases h1 : processEvent s e with ⟨s1, cs⟩
      rcases h2 : process_events s1 rest with ⟨s2, cs2⟩
      have hgoal : (process_events s (e :: rest)).2 = cs ++ cs2 := by
        simp [process_events, h1, h2]
      rw [hgoal]
      rcases List.mem_cons.mp hmem with he | he
      · rw [← he] at h1
        simp [processEvent] at h1
        rw [← h1.2]
        simp
      · have := ih s1 he
        rw [h2] at this
        exact List.mem_append_right cs this

theorem process_events_countP_zero (pr : GLCmd → Bool)
    (hv : ∀ w h, pr (GLCmd.viewport 0 0 w h) = false)
    (hs : pr GLCmd.setShouldClose = false)
    (s : WindowState) (evs : List WindowEvent) :
    List.countP pr (process_events s evs).2 = 0 := by
  rw [List.countP_eq_zero]
  intro c hc
  rcases process_events_cmds s evs c hc with ⟨w, h, rfl⟩ | rfl
  · simp [hv]
  · simp [hs]

/-! ### Helper lemmas about the render loop -/

theorem runLoop_closed (p v : Nat) (u : Int) (s : WindowState)
    (frames : List (List WindowEvent)) (h : s.shouldClose = true) :
    runLoop p v u s frames = (s, []) := by
  cases frames with
  | nil => rfl
  | cons b r => simp [runLoop, h]

theorem runLoop_running (p v : Nat) (u : Int) (s : WindowState)
    (batch : List WindowEvent) (rest : List (List WindowEvent))
    (h : s.shouldClose = false) :
    runLoop p v u s (batch :: rest) =
      ((runLoop p v u (process_events s batch).1 rest).1,
       (process_events s batch).2 ++ renderFrame p v u
         ++ (runLoop p v u (process_events s batch).1 rest).2) := by
  rcases h1 : process_events s batch with ⟨s1, ev⟩
  rcases h2 : runLoop p v u s1 rest with ⟨sf, tl⟩
  simp [runLoop, h, h1, h2]

theorem runLoop_countP_zero (pr : GLCmd → Bool) (p v : Nat) (u : Int)
    (hv : ∀ w h, pr (GLCmd.viewport 0 0 w h) = false)
    (hs : pr GLCmd.setShouldClose = false)
    (hr : List.countP pr (renderFrame p v u) = 0) :
    ∀ (frames : List (List WindowEvent)) (s : WindowState),
      List.countP pr (runLoop p v u s frames).2 = 0 := by
  intro frames
  induction frames with
  | nil => intro s; simp [runLoop]
  | cons b r ih =>
      intro s
      cases hb : s.shouldClose with
      | true => simp [runLoop_closed p v u s _ hb]
      | false =>
          rw [runLoop_running p v u s b r hb]
          simp [List.countP_append, hr, ih, process_events_countP_zero pr hv hs]

theorem runLoop_cmds (p v : Nat) (u : Int) :
    ∀ (frames : List (List WindowEvent)) (s : WindowState),
      ∀ c ∈ (runLoop p v u s frames).2,
        (∃ w h, c = GLCmd.viewport 0 0 w h) ∨ c = GLCmd.setShouldClose
          ∨ c ∈ renderFrame p v u := by
  intro frames
  induction frames with
  | nil => intro s c hc; simp [runLoop] at hc
  | cons b r ih =>
      intro s c hc
      cases hb : s.shouldClose with
      | true => rw [runLoop_closed p v u s _ hb] at hc; simp at hc
      | false =>
          rw [runLoop_running p v u s b r hb] at hc
          simp only [List.mem_append] at hc
          rcases hc with (hc | hc) | hc
          · rcases process_events_cmds s b c hc with ⟨w, h, rfl⟩ | rfl
            · exact Or.inl ⟨w, h, rfl⟩
            · exact Or.inr (Or.inl rfl)
          · exact Or.inr (Or.inr hc)
          · exact ih (process_events s b).1 c hc

/-! ### Helper lemmas about the shader builder -/

theorem infoLogString_length (l : List Nat) : (infoLogString l).length = 511 := by
  show ((readInfoLogBuffer l).map Char.ofNat).length = 511
  rw [List.length_map, readInfoLogBuffer, List.length_take, List.length_append,
    List.length_replicate]
  omega

theorem infoLogString_ne_empty (l : List Nat) : infoLogString l ≠ "" := by
  intro h
  have hl := infoLogString_length l
  rw [h] at hl
  exact (by decide : ¬ (("" : String).length = 511)) hl

theorem compiler_shader_vfail (d : Driver) (vsId fsId progId : Nat)
    (hv : d.vertexStatus ≠ GL_TRUE) :
    compiler_shader d vsId fsId progId =
      ([.createShader GL_VERTEX_SHADER vsId, .shaderSource vsId, .compileShader vsId,
        .getShaderiv vsId GL_COMPILE_STATUS, .getShaderInfoLog vsId],
       .error ("ERROR::SHADER::VERTEX::COMPILATION_FAILED\n" ++ infoLogString d.vertexLog)) := by
  simp [compiler_shader, compile_shader_with_debug, hv]

theorem compiler_shader_ffail (d : Driver) (vsId fsId progId : Nat)
    (hv : d.vertexStatus = GL_TRUE) (hf : d.fragmentStatus ≠ GL_TRUE) :
    compiler_shader d vsId fsId progId =
      ([.createShader GL_VERTEX_SHADER vsId, .shaderSource vsId, .compileShader vsId,
        .getShaderiv vsId GL_COMPILE_STATUS,
        .createShader GL_FRAGMENT_SHADER fsId, .shaderSource fsId, .compileShader fsId,
        .getShaderiv fsId GL_COMPILE_STATUS, .getShaderInfoLog fsId],
       .error ("ERROR::SHADER::FRAGMENT::COMPILATION_FAILED\n" ++ infoLogString d.fragmentLog)) := by
  simp [compiler_shader, compile_shader_with_debug, hv, hf]

theorem compiler_shader_lfail (d : Driver) (vsId fsId progId : Nat)
    (hv : d.vertexStatus = GL_TRUE) (hf : d.fragmentStatus = GL_TRUE)
    (hl : d.linkStatus ≠ GL_TRUE) :
    compiler_shader d vsId fsId progId =
      ([.createShader GL_VERTEX_SHADER vsId, .shaderSource vsId, .compileShader vsId,
        .getShaderiv vsId GL_COMPILE_STATUS,
        .createShader GL_FRAGMENT_SHADER fsId, .shaderSource fsId, .compileShader fsId,
        .getShaderiv fsId GL_COMPILE_STATUS,
        .createProgram progId, .attachShader progId vsId, .attachShader progId fsId,
        .linkProgram progId, .getProgramiv progId GL_LINK_STATUS,
        .getProgramInfoLog progId],
       .error ("ERROR::SHADER::PROGRAM::COMPILATION_FAILED\n" ++ infoLogString d.linkLog)) := by
  simp [compiler_shader, compile_shader_with_debug, check_linking_errors, hv, hf, hl]

theorem compiler_shader_success (d : Driver) (vsId fsId progId : Nat)
    (hv : d.vertexStatus = GL_TRUE) (hf : d.fragmentStatus = GL_TRUE)
    (hl : d.linkStatus = GL_TRUE) :
    compiler_shader d vsId fsId progId =
      ([.createShader GL_VERTEX_SHADER vsId, .shaderSource vsId, .compileShader vsId,
        .getShaderiv vsId GL_COMPILE_STATUS,
        .createShader GL_FRAGMENT_SHADER fsId, .shaderSource fsId, .compileShader fsId,
        .getShaderiv fsId GL_COMPILE_STATUS,
        .createProgram progId, .attachShader progId vsId, .attachShader progId fsId,
        .linkProgram progId, .getProgramiv progId GL_LINK_STATUS,
        .deleteShader vsId, .deleteShader fsId],
       .ok progId) := by
  simp [compiler_shader, compile_shader_with_debug, check_linking_errors, hv, hf, hl]

/-! ### The claims -/

/-- C1 (counterexample): the claim "once the close flag has been set during
event draining, no subsequent clear/draw/present of a frame occurs" is false
on the code: when the escape press is drained at the top of an iteration, the
close flag is set, yet the same iteration still clears, draws, and swaps
before the loop condition is rechecked.  Concretely, with one event batch
containing just the escape press, the resulting trace contains frame
commands after the `setShouldClose`. -/
theorem c1_draw_after_close_counterexample :
    frameCmdAfterClose
      (runLoop 1 2 0 initialWindowState
        [[WindowEvent.key GKey.escape 0 GAction.press 0]]).2 = true := by
  decide

/-- C1 (amended): an escape key-press drained during an iteration sets the
close flag, the current iteration still completes its clear/draw/present
once, and the loop then exits at the next loop-condition check: no iteration
after the one that drained the cancel event runs, so the only frame commands
after the transition are those of the current iteration's `renderFrame`. -/
theorem c1_close_transition_amended (p v : Nat) (u : Int) (s : WindowState)
    (batch : List WindowEvent) (rest : List (List WindowEvent))
    (sc : Int) (m : Nat) (hs : s.shouldClose = false)
    (hmem : WindowEvent.key GKey.escape sc GAction.press m ∈ batch) :
    ((process_events s batch).1).shouldClose = true ∧
    runLoop p v u s (batch :: rest) =
      ((process_events s batch).1,
       (process_events s batch).2 ++ renderFrame p v u) := by
  have hclose := process_events_escape s batch sc m hmem
  refine ⟨hclose, ?_⟩
  rw [runLoop_running p v u s batch rest hs,
    runLoop_closed p v u (process_events s batch).1 rest hclose]
  simp

/-- C1 witness. -/
theorem c1_close_transition_amended_witness :
    ((process_events initialWindowState
        [WindowEvent.key GKey.escape 0 GAction.press 0]).1).shouldClose = true ∧
    runLoop 1 2 0 initialWindowState
        ([WindowEvent.key GKey.escape 0 GAction.press 0] :: [[], []]) =
      ((process_events initialWindowState
          [WindowEvent.key GKey.escape 0 GAction.press 0]).1,
       (process_events initialWindowState
          [WindowEvent.key GKey.escape 0 GAction.press 0]).2 ++ renderFrame 1 2 0) :=
  c1_close_transition_amended 1 2 0 initialWindowState _ [[], []] 0 0 rfl
    (by decide)

/-- C2: if either stage's compile-status query is not `GL_TRUE`, the shader
builder aborts with a panic message that names the failing stage (`VERTEX`
when the vertex stage failed, `FRAGMENT` when the vertex stage succeeded and
the fragment stage failed) and embeds a non-empty driver info log; no
recovery is attempted — in particular no program object is ever created. -/
theorem c2_compile_failure_fatal (d : Driver) (vsId fsId progId : Nat)
    (hfail : d.vertexStatus ≠ GL_TRUE ∨ d.fragmentStatus ≠ GL_TRUE) :
    ∃ stage log,
      (compiler_shader d vsId fsId progId).2 =
        Except.error ("ERROR::SHADER::" ++ stage ++ "::COMPILATION_FAILED\n" ++ log) ∧
      (stage = "VERTEX" ∨ stage = "FRAGMENT") ∧
      (d.vertexStatus ≠ GL_TRUE → stage = "VERTEX") ∧
      (d.vertexStatus = GL_TRUE → stage = "FRAGMENT") ∧
      log.length = 511 ∧ log ≠ "" ∧
      (∀ q, GLCmd.createProgram q ∉ (compiler_shader d vsId fsId progId).1) := by
  by_cases hv : d.vertexStatus = GL_TRUE
  · have hf : d.fragmentStatus ≠ GL_TRUE := by
      rcases hfail with h | h
      · exact absurd hv h
      · exact h
    refine ⟨"FRAGMENT", infoLogString d.fragmentLog, ?_, Or.inr rfl,
      fun h => absurd hv h, fun _ => rfl, infoLogString_length _,
      infoLogString_ne_empty _, ?_⟩
    · rw [compiler_shader_ffail d vsId fsId progId hv hf]
      rfl
    · intro q
      rw [compiler_shader_ffail d vsId fsId progId hv hf]
      simp
  · refine ⟨"VERTEX", infoLogString d.vertexLog, ?_, Or.inl rfl,
      fun _ => rfl, fun h => absurd h hv, infoLogString_length _,
      infoLogString_ne_empty _, ?_⟩
    · rw [compiler_shader_vfail d vsId fsId progId hv]
      rfl
    · intro q
      rw [compiler_shader_vfail d vsId fsId progId hv]
      simp

/-- C2 witness. -/
theorem c2_compile_failure_fatal_witness :
    ∃ stage log,
      (compiler_shader ⟨0, [], 1, [], 1, []⟩ 1 2 3).2 =
        Except.error ("ERROR::SHADER::" ++ stage ++ "::COMPILATION_FAILED\n" ++ log) ∧
      (stage = "VERTEX" ∨ stage = "FRAGMENT") ∧
      ((0 : Int) ≠ GL_TRUE → stage = "VERTEX") ∧
      ((0 : Int) = GL_TRUE → stage = "FRAGMENT") ∧
      log.length = 511 ∧ log ≠ "" ∧
      (∀ q, GLCmd.createProgram q ∉ (compiler_shader ⟨0, [], 1, [], 1, []⟩ 1 2 3).1) :=
  c2_compile_failure_fatal ⟨0, [], 1, [], 1, []⟩ 1 2 3 (Or.inl (by decide))

/-- C3: when both stages compile but the link-status query is not `GL_TRUE`,
the builder aborts with the program-link panic message embedding a non-empty
driver log; the failure is detected immediately after the link call (the
trace ends with link, link-status query, program-info-log fetch) and the
function never returns a handle (the per-stage shader objects are not even
deleted, since the panic aborts first). -/
theorem c3_link_failure_fatal (d : Driver) (vsId fsId progId : Nat)
    (hv : d.vertexStatus = GL_TRUE) (hf : d.fragmentStatus = GL_TRUE)
    (hl : d.linkStatus ≠ GL_TRUE) :
    (compiler_shader d vsId fsId progId).2 =
      Except.error ("ERROR::SHADER::PROGRAM::COMPILATION_FAILED\n" ++
        infoLogString d.linkLog) ∧
    (infoLogString d.linkLog).length = 511 ∧
    infoLogString d.linkLog ≠ "" ∧
    (∃ t0, (compiler_shader d vsId fsId progId).1 =
      t0 ++ [GLCmd.linkProgram progId, GLCmd.getProgramiv progId GL_LINK_STATUS,
             GLCmd.getProgramInfoLog progId]) ∧
    GLCmd.deleteShader vsId ∉ (compiler_shader d vsId fsId progId).1 := by
  rw [compiler_shader_lfail d vsId fsId progId hv hf hl]
  refine ⟨rfl, infoLogString_length _, infoLogString_ne_empty _, ?_, ?_⟩
  · exact ⟨[.createShader GL_VERTEX_SHADER vsId, .shaderSource vsId, .compileShader vsId,
      .getShaderiv vsId GL_COMPILE_STATUS,
      .createShader GL_FRAGMENT_SHADER fsId, .shaderSource fsId, .compileShader fsId,
      .getShaderiv fsId GL_COMPILE_STATUS,
      .createProgram progId, .attachShader progId vsId, .attachShader progId fsId], rfl⟩
  · simp

/-- C3 witness. -/
theorem c3_link_failure_fatal_witness :
    (compiler_shader ⟨1, [], 1, [], 0, []⟩ 1 2 3).2 =
      Except.error ("ERROR::SHADER::PROGRAM::COMPILATION_FAILED\n" ++
        infoLogString []) ∧
    (infoLogString []).length = 511 ∧
    infoLogString [] ≠ "" ∧
    (∃ t0, (compiler_shader ⟨1, [], 1, [], 0, []⟩ 1 2 3).1 =
      t0 ++ [GLCmd.linkProgram 3, GLCmd.getProgramiv 3 GL_LINK_STATUS,
             GLCmd.getProgramInfoLog 3]) ∧
    GLCmd.deleteShader 1 ∉ (compiler_shader ⟨1, [], 1, [], 0, []⟩ 1 2 3).1 :=
  c3_link_failure_fatal ⟨1, [], 1, [], 0, []⟩ 1 2 3 rfl rfl (by decide)

/-- C4: when both stages compile and the link succeeds, the builder's trace
is exactly: create + source + compile + status-check per stage, then create
program, attach both shaders, link, link-status check, then delete both
shader objects, and the linked program handle is returned.  The deletions
come after the link-status check and before the return, as claimed. -/
theorem c4_success_builds_and_deletes (d : Driver) (vsId fsId progId : Nat)
    (hv : d.vertexStatus = GL_TRUE) (hf : d.fragmentStatus = GL_TRUE)
    (hl : d.linkStatus = GL_TRUE) :
    compiler_shader d vsId fsId progId =
      ([.createShader GL_VERTEX_SHADER vsId, .shaderSource vsId, .compileShader vsId,
        .getShaderiv vsId GL_COMPILE_STATUS,
        .createShader GL_FRAGMENT_SHADER fsId, .shaderSource fsId, .compileShader fsId,
        .getShaderiv fsId GL_COMPILE_STATUS,
        .createProgram progId, .attachShader progId vsId, .attachShader progId fsId,
        .linkProgram progId, .getProgramiv progId GL_LINK_STATUS,
        .deleteShader vsId, .deleteShader fsId],
       Except.ok progId) :=
  compiler_shader_success d vsId fsId progId hv hf hl

/-- C4 witness. -/
theorem c4_success_builds_and_deletes_witness :
    compiler_shader ⟨1, [], 1, [], 1, []⟩ 1 2 3 =
      ([.createShader GL_VERTEX_SHADER 1, .shaderSource 1, .compileShader 1,
        .getShaderiv 1 GL_COMPILE_STATUS,
        .createShader GL_FRAGMENT_SHADER 2, .shaderSource 2, .compileShader 2,
        .getShaderiv 2 GL_COMPILE_STATUS,
        .createProgram 3, .attachShader 3 1, .attachShader 3 2,
        .linkProgram 3, .getProgramiv 3 GL_LINK_STATUS,
        .deleteShader 1, .deleteShader 2],
       Except.ok 3) :=
  c4_success_builds_and_deletes ⟨1, [], 1, [], 1, []⟩ 1 2 3 rfl rfl rfl

/-- C5: every iteration entered in the Running state performs, in order:
drain the pending event batch, clear to the fixed background color
`(0.2, 0.3, 0.3, 1.0)`, bind the program and the vertex array (with the
uniform lookup/upload in between), issue exactly one non-indexed draw of 3
vertices as `GL_TRIANGLES`, swap buffers, poll events; the drained-event
commands contain no draw, and the per-iteration render block contains
exactly one draw call. -/
theorem c5_running_iteration_order (p v : Nat) (u : Int) (s : WindowState)
    (batch : List WindowEvent) (rest : List (List WindowEvent))
    (hs : s.shouldClose = false) :
    (runLoop p v u s (batch :: rest)).2 =
      (process_events s batch).2
        ++ [GLCmd.clearColor 0.2 0.3 0.3 1.0, GLCmd.clear GL_COLOR_BUFFER_BIT,
            GLCmd.getUniformLocation p "albedo", GLCmd.useProgram p,
            GLCmd.uniform4f u, GLCmd.bindVertexArray v,
            GLCmd.drawArrays GL_TRIANGLES 0 3, GLCmd.swapBuffers, GLCmd.pollEvents]
        ++ (runLoop p v u (process_events s batch).1 rest).2 ∧
    countDraws (renderFrame p v u) = 1 ∧
    countDraws (process_events s batch).2 = 0 := by
  refine ⟨?_, rfl, ?_⟩
  · rw [runLoop_running p v u s batch rest hs]
    rfl
  · exact process_events_countP_zero (fun c => isDrawCmd c)
      (fun w ht => rfl) rfl s batch

/-- C5 witness. -/
theorem c5_running_iteration_order_witness :
    (runLoop 1 2 0 initialWindowState ([WindowEvent.otherEvent 7] :: [])).2 =
      (process_events initialWindowState [WindowEvent.otherEvent 7]).2
        ++ [GLCmd.clearColor 0.2 0.3 0.3 1.0, GLCmd.clear GL_COLOR_BUFFER_BIT,
            GLCmd.getUniformLocation 1 "albedo", GLCmd.useProgram 1,
            GLCmd.uniform4f 0, GLCmd.bindVertexArray 2,
            GLCmd.drawArrays GL_TRIANGLES 0 3, GLCmd.swapBuffers, GLCmd.pollEvents]
        ++ (runLoop 1 2 0
              (process_events initialWindowState [WindowEvent.otherEvent 7]).1 []).2 ∧
    countDraws (renderFrame 1 2 0) = 1 ∧
    countDraws (process_events initialWindowState [WindowEvent.otherEvent 7]).2 = 0 :=
  c5_running_iteration_order 1 2 0 initialWindowState [WindowEvent.otherEvent 7] [] rfl

/-- C6: the mesh upload generates one VAO and one VBO, binds them, uploads
the 9-float (3-vertex) triangle as 36 bytes of `GL_STATIC_DRAW` storage,
declares exactly one attribute — index 0, 3 float components, not
normalized, stride `3 * sizeof(GLfloat) = 12` bytes, offset 0 — enables it,
then unbinds buffer and array (replaying the trace leaves the bind state at
`(0, 0)`), and returns the VAO handle. -/
theorem c6_mesh_upload_structure (vboId vaoId : Nat) :
    setup_vertex_data vboId vaoId =
      ([ GLCmd.genVertexArrays vaoId
       , GLCmd.genBuffers vboId
       , GLCmd.bindVertexArray vaoId
       , GLCmd.bindBuffer GL_ARRAY_BUFFER vboId
       , GLCmd.bufferData GL_ARRAY_BUFFER 36 GL_STATIC_DRAW
       , GLCmd.vertexAttribPointer 0 3 GL_FLOAT false 12 0
       , GLCmd.enableVertexAttribArray 0
       , GLCmd.bindBuffer GL_ARRAY_BUFFER 0
       , GLCmd.bindVertexArray 0 ], vaoId) ∧
    countAttribPointer (setup_vertex_data vboId vaoId).1 = 1 ∧
    finalBindState (setup_vertex_data vboId vaoId).1 = (0, 0) ∧
    countDraws (setup_vertex_data vboId vaoId).1 = 0 :=
  ⟨rfl, rfl, rfl, rfl⟩

/-- C7: if the drained batch contains a framebuffer-resize event `(W, H)`,
the trace from that iteration on contains a `glViewport(0, 0, W, H)` call
with no draw call anywhere before it: the viewport is updated before the
next draw. -/
theorem c7_resize_sets_viewport_before_draw (p v : Nat) (u : Int)
    (s : WindowState) (batch : List WindowEvent)
    (rest : List (List WindowEvent)) (W H : Int)
    (hs : s.shouldClose = false)
    (hmem : WindowEvent.framebufferSize W H ∈ batch) :
    ∃ t1 t2, (runLoop p v u s (batch :: rest)).2
        = t1 ++ GLCmd.viewport 0 0 W H :: t2 ∧
      ∀ c ∈ t1, isDrawCmd c = false := by
  have hv := process_events_viewport_mem s batch W H hmem
  rcases List.append_of_mem hv with ⟨l1, l2, hsplit⟩
  refine ⟨l1, l2 ++ renderFrame p v u
    ++ (runLoop p v u (process_events s batch).1 rest).2, ?_, ?_⟩
  · rw [runLoop_running p v u s batch rest hs, hsplit]
    simp
  · intro c hc
    have hcm : c ∈ (process_events s batch).2 := by
      rw [hsplit]
      exact List.mem_append_left _ hc
    rcases process_events_cmds s batch c hcm with ⟨w, ht, rfl⟩ | rfl
    · rfl
    · rfl

/-- C7 witness. -/
theorem c7_resize_sets_viewport_before_draw_witness :
    ∃ t1 t2, (runLoop 1 2 0 initialWindowState
        ([WindowEvent.framebufferSize 320 240] :: [])).2
        = t1 ++ GLCmd.viewport 0 0 320 240 :: t2 ∧
      ∀ c ∈ t1, isDrawCmd c = false :=
  c7_resize_sets_viewport_before_draw 1 2 0 initialWindowState
    [WindowEvent.framebufferSize 320 240] [] 320 240 rfl (by decide)

/-- C8: an event that is neither a framebuffer-resize nor an escape
key-press is silently discarded: the handler leaves the window state (close
flag and viewport) unchanged and issues no GL command. -/
theorem c8_other_events_ignored (s : WindowState) (e : WindowEvent)
    (hnr : ∀ w h, e ≠ WindowEvent.framebufferSize w h)
    (hne : ∀ sc m, e ≠ WindowEvent.key GKey.escape sc GAction.press m) :
    processEvent s e = (s, []) := by
  cases e with
  | framebufferSize w ht => exact absurd rfl (hnr w ht)
  | key k sc a m =>
      cases k with
      | escape =>
          cases a with
          | press => exact absurd rfl (hne sc m)
          | release => rfl
          | repeatKey => rfl
      | otherKey code => rfl
  | otherEvent t => rfl

/-- C8 witness. -/
theorem c8_other_events_ignored_witness :
    processEvent initialWindowState (WindowEvent.otherEvent 5)
      = (initialWindowState, []) :=
  c8_other_events_ignored initialWindowState (WindowEvent.otherEvent 5)
    (fun w ht => by simp) (fun sc m => by simp)

/-- C9: on a successful build, the trace of `main` decomposes into a startup
segment (shader build + mesh upload) followed by the loop trace; the startup
segment contains exactly one `glCreateProgram` and one `glGenVertexArrays`
and no draw, the loop trace contains neither call (nothing is ever recreated
or replaced), and every `glUseProgram` / `glBindVertexArray` issued by the
loop uses exactly the program handle and VAO handle produced at startup. -/
theorem c9_single_program_single_vao (d : Driver)
    (vsId fsId progId vboId vaoId : Nat) (uloc : Int)
    (frames : List (List WindowEvent))
    (hv : d.vertexStatus = GL_TRUE) (hf : d.fragmentStatus = GL_TRUE)
    (hl : d.linkStatus = GL_TRUE) :
    (mainModel d vsId fsId progId vboId vaoId uloc frames).1 =
      ((compiler_shader d vsId fsId progId).1 ++ (setup_vertex_data vboId vaoId).1)
        ++ (runLoop progId vaoId uloc initialWindowState frames).2 ∧
    countCreateProgram
      ((compiler_shader d vsId fsId progId).1 ++ (setup_vertex_data vboId vaoId).1) = 1 ∧
    countGenVertexArrays
      ((compiler_shader d vsId fsId progId).1 ++ (setup_vertex_data vboId vaoId).1) = 1 ∧
    countDraws
      ((compiler_shader d vsId fsId progId).1 ++ (setup_vertex_data vboId vaoId).1) = 0 ∧
    countCreateProgram (runLoop progId vaoId uloc initialWindowState frames).2 = 0 ∧
    countGenVertexArrays (runLoop progId vaoId uloc initialWindowState frames).2 = 0 ∧
    (∀ q, GLCmd.useProgram q ∈ (runLoop progId vaoId uloc initialWindowState frames).2
      → q = progId) ∧
    (∀ q, GLCmd.bindVertexArray q ∈ (runLoop progId vaoId uloc initialWindowState frames).2
      → q = vaoId) := by
  have hcs := compiler_shader_success d vsId fsId progId hv hf hl
  refine ⟨?_, ?_, ?_, ?_, ?_, ?_, ?_, ?_⟩
  · simp [mainModel, hcs, setup_vertex_data]
  · rw [hcs]
    rfl
  · rw [hcs]
    rfl
  · rw [hcs]
    rfl
  · exact runLoop_countP_zero
      (fun c => match c with | GLCmd.createProgram _ => true | _ => false)
      progId vaoId uloc (fun w ht => rfl) rfl rfl frames initialWindowState
  · exact runLoop_countP_zero
      (fun c => match c with | GLCmd.genVertexArrays _ => true | _ => false)
      progId vaoId uloc (fun w ht => rfl) rfl rfl frames initialWindowState
  · intro q hq
    rcases runLoop_cmds progId vaoId uloc frames initialWindowState _ hq with
      ⟨w, ht, heq⟩ | heq | hmem
    · exact absurd heq (by simp)
    · exact absurd heq (by simp)
    · simpa [renderFrame] using hmem
  · intro q hq
    rcases runLoop_cmds progId vaoId uloc frames initialWindowState _ hq with
      ⟨w, ht, heq⟩ | heq | hmem
    · exact absurd heq (by simp)
    · exact absurd heq (by simp)
    · simpa [renderFrame] using hmem

/-- C9 witness. -/
theorem c9_single_program_single_vao_witness :
    (mainModel ⟨1, [], 1, [], 1, []⟩ 1 2 3 4 5 0 [[]]).1 =
      ((compiler_shader ⟨1, [], 1, [], 1, []⟩ 1 2 3).1 ++ (setup_vertex_data 4 5).1)
        ++ (runLoop 3 5 0 initialWindowState [[]]).2 ∧
    countCreateProgram
      ((compiler_shader ⟨1, [], 1, [], 1, []⟩ 1 2 3).1 ++ (setup_vertex_data 4 5).1) = 1 ∧
    countGenVertexArrays
      ((compiler_shader ⟨1, [], 1, [], 1, []⟩ 1 2 3).1 ++ (setup_vertex_data 4 5).1) = 1 ∧
    countDraws
      ((compiler_shader ⟨1, [], 1, [], 1, []⟩ 1 2 3).1 ++ (setup_vertex_data 4 5).1) = 0 ∧
    countCreateProgram (runLoop 3 5 0 initialWindowState [[]]).2 = 0 ∧
    countGenVertexArrays (runLoop 3 5 0 initialWindowState [[]]).2 = 0 ∧
    (∀ q, GLCmd.useProgram q ∈ (runLoop 3 5 0 initialWindowState [[]]).2 → q = 3) ∧
    (∀ q, GLCmd.bindVertexArray q ∈ (runLoop 3 5 0 initialWindowState [[]]).2 → q = 5) :=
  c9_single_program_single_vao ⟨1, [], 1, [], 1, []⟩ 1 2 3 4 5 0 [[]] rfl rfl rfl

/-- C10: an escape key event whose action is not a press (release or repeat)
does not set the close flag and does not end the loop: the handler leaves
the state untouched and emits nothing, and an iteration that drains only
such an event still renders and continues into the remaining iterations
with the same state. -/
theorem c10_escape_non_press_ignored (p v : Nat) (u : Int) (s : WindowState)
    (sc : Int) (a : GAction) (m : Nat) (rest : List (List WindowEvent))
    (ha : a ≠ GAction.press) (hs : s.shouldClose = false) :
    processEvent s (WindowEvent.key GKey.escape sc a m) = (s, []) ∧
    runLoop p v u s ([WindowEvent.key GKey.escape sc a m] :: rest) =
      ((runLoop p v u s rest).1,
       renderFrame p v u ++ (runLoop p v u s rest).2) := by
  have hpe : processEvent s (WindowEvent.key GKey.escape sc a m) = (s, []) := by
    cases a with
    | press => exact absurd rfl ha
    | release => rfl
    | repeatKey => rfl
  have hdrain : process_events s [WindowEvent.key GKey.escape sc a m] = (s, []) := by
    simp [process_events, hpe]
  refine ⟨hpe, ?_⟩
  rw [runLoop_running p v u s _ rest hs, hdrain]
  simp

/-- C10 witness. -/
theorem c10_escape_non_press_ignored_witness :
    processEvent initialWindowState
        (WindowEvent.key GKey.escape 0 GAction.release 0)
      = (initialWindowState, []) ∧
    runLoop 1 2 0 initialWindowState
        ([WindowEvent.key GKey.escape 0 GAction.release 0] :: [[]]) =
      ((runLoop 1 2 0 initialWindowState [[]]).1,
       renderFrame 1 2 0 ++ (runLoop 1 2 0 initialWindowState [[]]).2) :=
  c10_escape_non_press_ignored 1 2 0 initialWindowState 0 GAction.release 0 [[]]
    (by decide) rfl

end OpenGLPlayground
